import Mathlib

/-!
Verification of the inventory-replenishment calculator
(amazon-inventory-planner): a shallow embedding of the reorder-point
computation engine (`compute_from_last_months` in `calc.py` / `main.py`)
and the calendar window resolver (`last_n_calendar_months` in `main.py`),
with theorems settling the specification's claims about them.

Python floats are modelled as real numbers; Python ints as `Int`;
Python lists as `List`.
-/

namespace Planner

/-- The five-metric result dictionary returned by the engine
(`daily_velocity`, `std_daily`, `safety_stock`, `rop`, `order_qty`). -/
structure Metrics where
  daily_velocity : ℝ
  std_daily : ℝ
  safety_stock : ℝ
  rop : ℝ
  order_qty : ℝ

/-- The engine's monthly mean, `sum(monthly_units) / len(monthly_units)`. -/
noncomputable def mean_month (monthly_units : List ℤ) : ℝ :=
  (monthly_units.sum : ℝ) / (monthly_units.length : ℝ)

/-- Embedding of Python `statistics.stdev`: the Bessel-corrected
(n-1 denominator) sample standard deviation
`sqrt(sum((x - mean)^2) / (n - 1))`. -/
noncomputable def stdev (xs : List ℤ) : ℝ :=
  Real.sqrt
    (((xs.map (fun x : ℤ => ((x : ℝ) - mean_month xs) ^ 2)).sum) /
      ((xs.length : ℝ) - 1))

/-- Embedding of `compute_from_last_months` from `calc.py` (identical copy
in `main.py`): empty history returns all-zero metrics; otherwise
`daily_velocity = mean/30`, `std_daily = stdev/30` guarded by the `n < 2`
check, `safety_stock = z * std_daily * sqrt(lead_time)` (the source has no
`max(1, lead_time)` floor), `rop = daily_velocity * lead_time +
safety_stock`, `order_qty = max(0, daily_velocity * 60 + safety_stock -
(fba_stock + inbound_stock))`. -/
noncomputable def compute_from_last_months (lead_time : ℤ) (z : ℝ)
    (monthly_units : List ℤ) (fba_stock inbound_stock : ℤ) : Metrics :=
  if monthly_units = [] then
    { daily_velocity := 0.0, std_daily := 0.0, safety_stock := 0.0,
      rop := 0.0, order_qty := 0.0 }
  else
    let daily_velocity : ℝ := mean_month monthly_units / 30.0
    let std_daily : ℝ :=
      if monthly_units.length < 2 then 0.0 else stdev monthly_units / 30.0
    let safety_stock : ℝ := z * std_daily * Real.sqrt (lead_time : ℝ)
    let rop : ℝ := daily_velocity * (lead_time : ℝ) + safety_stock
    let order_qty : ℝ :=
      max 0.0 (daily_velocity * 60 + safety_stock -
        ((fba_stock : ℝ) + (inbound_stock : ℝ)))
    { daily_velocity := daily_velocity, std_daily := std_daily,
      safety_stock := safety_stock, rop := rop, order_qty := order_qty }

end Planner

namespace Planner

/-- On a non-empty history, the returned `daily_velocity` field. -/
theorem daily_velocity_eq (lead_time : ℤ) (z : ℝ) (monthly_units : List ℤ)
    (fba_stock inbound_stock : ℤ) (h : monthly_units ≠ []) :
    (compute_from_last_months lead_time z monthly_units fba_stock
        inbound_stock).daily_velocity = mean_month monthly_units / 30.0 := by
  simp [compute_from_last_months, h]

/-- On a non-empty history, the returned `std_daily` field. -/
theorem std_daily_eq (lead_time : ℤ) (z : ℝ) (monthly_units : List ℤ)
    (fba_stock inbound_stock : ℤ) (h : monthly_units ≠ []) :
    (compute_from_last_months lead_time z monthly_units fba_stock
        inbound_stock).std_daily =
      if monthly_units.length < 2 then 0.0
      else stdev monthly_units / 30.0 := by
  simp [compute_from_last_months, h]

/-- On a non-empty history, the returned `safety_stock` field. -/
theorem safety_stock_eq (lead_time : ℤ) (z : ℝ) (monthly_units : List ℤ)
    (fba_stock inbound_stock : ℤ) (h : monthly_units ≠ []) :
    (compute_from_last_months lead_time z monthly_units fba_stock
        inbound_stock).safety_stock =
      z * (compute_from_last_months lead_time z monthly_units fba_stock
        inbound_stock).std_daily * Real.sqrt (lead_time : ℝ) := by
  simp [compute_from_last_months, h]

/-- On a non-empty history, the returned `rop` field. -/
theorem rop_eq (lead_time : ℤ) (z : ℝ) (monthly_units : List ℤ)
    (fba_stock inbound_stock : ℤ) (h : monthly_units ≠ []) :
    (compute_from_last_months lead_time z monthly_units fba_stock
        inbound_stock).rop =
      (compute_from_last_months lead_time z monthly_units fba_stock
        inbound_stock).daily_velocity * (lead_time : ℝ) +
      (compute_from_last_months lead_time z monthly_units fba_stock
        inbound_stock).safety_stock := by
  simp [compute_from_last_months, h]

/-- On a non-empty history, the returned `order_qty` field. -/
theorem order_qty_eq (lead_time : ℤ) (z : ℝ) (monthly_units : List ℤ)
    (fba_stock inbound_stock : ℤ) (h : monthly_units ≠ []) :
    (compute_from_last_months lead_time z monthly_units fba_stock
        inbound_stock).order_qty =
      max 0.0
        ((compute_from_last_months lead_time z monthly_units fba_stock
          inbound_stock).daily_velocity * 60 +
         (compute_from_last_months lead_time z monthly_units fba_stock
          inbound_stock).safety_stock -
         ((fba_stock : ℝ) + (inbound_stock : ℝ))) := by
  simp [compute_from_last_months, h]

/-- C2: empty history returns the all-zero metrics record. -/
theorem compute_empty_all_zero (lead_time : ℤ) (z : ℝ)
    (fba_stock inbound_stock : ℤ) :
    compute_from_last_months lead_time z [] fba_stock inbound_stock =
      { daily_velocity := 0.0, std_daily := 0.0, safety_stock := 0.0,
        rop := 0.0, order_qty := 0.0 } := by
  simp [compute_from_last_months]

/-- C1 counterexample: the claimed formula
`safetyStock = z * stdDaily * sqrt(max(1, leadTimeDays))` fails at
`lead_time = 0`, `z = 1`, `monthly_units = [0, 60]`: the source computes
`sqrt(0) = 0` (no `max(1, …)` floor), while the claimed formula gives
`stdDaily * 1 > 0`. -/
theorem claim1_counterexample :
    ¬ ((compute_from_last_months 0 1 [0, 60] 0 0).safety_stock =
        1 * (compute_from_last_months 0 1 [0, 60] 0 0).std_daily *
          Real.sqrt (max 1 (((0 : ℤ) : ℝ)))) := by
  have h : ([0, 60] : List ℤ) ≠ [] := by simp
  rw [safety_stock_eq 0 1 [0, 60] 0 0 h, std_daily_eq 0 1 [0, 60] 0 0 h]
  have h1800 : (0 : ℝ) < Real.sqrt 1800 := Real.sqrt_pos.mpr (by norm_num)
  simp [stdev, mean_month]
  norm_num
  intro heq
  nlinarith [heq, h1800]

/-- C1 (amended): on a non-empty history the source computes
`safetyStock = z * stdDaily * sqrt(leadTimeDays)` with no `max(1, …)`
floor; for `leadTimeDays ≥ 1` this coincides with the claimed
`sqrt(max(1, leadTimeDays))`. -/
theorem claim1_amended (lead_time : ℤ) (z : ℝ) (monthly_units : List ℤ)
    (fba_stock inbound_stock : ℤ) (h : monthly_units ≠ []) :
    (compute_from_last_months lead_time z monthly_units fba_stock
        inbound_stock).safety_stock =
      z * (compute_from_last_months lead_time z monthly_units fba_stock
        inbound_stock).std_daily * Real.sqrt (lead_time : ℝ) ∧
    (1 ≤ lead_time →
      (compute_from_last_months lead_time z monthly_units fba_stock
          inbound_stock).safety_stock =
        z * (compute_from_last_months lead_time z monthly_units fba_stock
          inbound_stock).std_daily *
          Real.sqrt (max 1 ((lead_time : ℤ) : ℝ))) := by
  refine ⟨safety_stock_eq lead_time z monthly_units fba_stock
    inbound_stock h, fun hlt => ?_⟩
  have hmax : max (1 : ℝ) ((lead_time : ℤ) : ℝ) = ((lead_time : ℤ) : ℝ) :=
    max_eq_right (by exact_mod_cast hlt)
  rw [hmax]
  exact safety_stock_eq lead_time z monthly_units fba_stock inbound_stock h

/-- C1 witness: the amended safety-stock formula instantiated at
`lead_time = 14`, `z = 1.65`, `monthly_units = [60, 90, 120]`. -/
theorem claim1_amended_witness :
    ([60, 90, 120] : List ℤ) ≠ [] ∧
    ((compute_from_last_months 14 1.65 [60, 90, 120] 0 0).safety_stock =
      1.65 * (compute_from_last_months 14 1.65 [60, 90, 120] 0
        0).std_daily * Real.sqrt ((14 : ℤ) : ℝ)) :=
  ⟨by simp, (claim1_amended 14 1.65 [60, 90, 120] 0 0 (by simp)).1⟩

/-- C3: on a non-empty history, `daily_velocity = (sum / length) / 30.0`,
`std_daily = 0.0` for fewer than 2 observations, and otherwise
`std_daily` is the Bessel-corrected (n-1 denominator) sample standard
deviation divided by 30.0. -/
theorem claim3_velocity_std (lead_time : ℤ) (z : ℝ)
    (monthly_units : List ℤ) (fba_stock inbound_stock : ℤ)
    (h : monthly_units ≠ []) :
    (compute_from_last_months lead_time z monthly_units fba_stock
        inbound_stock).daily_velocity =
      ((monthly_units.sum : ℝ) / (monthly_units.length : ℝ)) / 30.0 ∧
    (monthly_units.length < 2 →
      (compute_from_last_months lead_time z monthly_units fba_stock
        inbound_stock).std_daily = 0.0) ∧
    (2 ≤ monthly_units.length →
      (compute_from_last_months lead_time z monthly_units fba_stock
          inbound_stock).std_daily =
        Real.sqrt
          (((monthly_units.map (fun x : ℤ => ((x : ℝ) -
              (monthly_units.sum : ℝ) / (monthly_units.length : ℝ)) ^
              2)).sum) / ((monthly_units.length : ℝ) - 1)) / 30.0) := by
  refine ⟨?_, ?_, ?_⟩
  · rw [daily_velocity_eq lead_time z monthly_units fba_stock
      inbound_stock h]
    rfl
  · intro hlen
    rw [std_daily_eq lead_time z monthly_units fba_stock inbound_stock h]
    simp [hlen]
  · intro hlen
    rw [std_daily_eq lead_time z monthly_units fba_stock inbound_stock h]
    rw [if_neg (by omega)]
    rfl

/-- C3 witness: instantiated at `monthly_units = [60, 90, 120]`. -/
theorem claim3_velocity_std_witness :
    ([60, 90, 120] : List ℤ) ≠ [] ∧
    (compute_from_last_months 14 1.65 [60, 90, 120] 0
        0).daily_velocity =
      ((([60, 90, 120] : List ℤ).sum : ℝ) /
        (([60, 90, 120] : List ℤ).length : ℝ)) / 30.0 :=
  ⟨by simp,
    (claim3_velocity_std 14 1.65 [60, 90, 120] 0 0 (by simp)).1⟩

/-- C4: on a non-empty history,
`rop = daily_velocity * lead_time + safety_stock` and
`order_qty = max(0, daily_velocity * 60 + safety_stock -
(fba_stock + inbound_stock))`. -/
theorem claim4_rop_order_qty (lead_time : ℤ) (z : ℝ)
    (monthly_units : List ℤ) (fba_stock inbound_stock : ℤ)
    (h : monthly_units ≠ []) :
    (compute_from_last_months lead_time z monthly_units fba_stock
        inbound_stock).rop =
      (compute_from_last_months lead_time z monthly_units fba_stock
        inbound_stock).daily_velocity * (lead_time : ℝ) +
      (compute_from_last_months lead_time z monthly_units fba_stock
        inbound_stock).safety_stock ∧
    (compute_from_last_months lead_time z monthly_units fba_stock
        inbound_stock).order_qty =
      max 0.0
        ((compute_from_last_months lead_time z monthly_units fba_stock
          inbound_stock).daily_velocity * 60 +
         (compute_from_last_months lead_time z monthly_units fba_stock
          inbound_stock).safety_stock -
         ((fba_stock : ℝ) + (inbound_stock : ℝ))) :=
  ⟨rop_eq lead_time z monthly_units fba_stock inbound_stock h,
   order_qty_eq lead_time z monthly_units fba_stock inbound_stock h⟩

/-- C4 witness: instantiated at `monthly_units = [90]`, `lead_time = 30`. -/
theorem claim4_rop_order_qty_witness :
    ([90] : List ℤ) ≠ [] ∧
    (compute_from_last_months 30 1.65 [90] 0 0).rop =
      (compute_from_last_months 30 1.65 [90] 0 0).daily_velocity *
        ((30 : ℤ) : ℝ) +
      (compute_from_last_months 30 1.65 [90] 0 0).safety_stock :=
  ⟨by simp, (claim4_rop_order_qty 30 1.65 [90] 0 0 (by simp)).1⟩

/-- Helper: the first four metrics do not depend on the stock
arguments. -/
theorem fields_stock_independent (lead_time : ℤ) (z : ℝ)
    (monthly_units : List ℤ) (fba_stock inbound_stock fba_stock2
      inbound_stock2 : ℤ) :
    (compute_from_last_months lead_time z monthly_units fba_stock
        inbound_stock).daily_velocity =
      (compute_from_last_months lead_time z monthly_units fba_stock2
        inbound_stock2).daily_velocity ∧
    (compute_from_last_months lead_time z monthly_units fba_stock
        inbound_stock).std_daily =
      (compute_from_last_months lead_time z monthly_units fba_stock2
        inbound_stock2).std_daily ∧
    (compute_from_last_months lead_time z monthly_units fba_stock
        inbound_stock).safety_stock =
      (compute_from_last_months lead_time z monthly_units fba_stock2
        inbound_stock2).safety_stock ∧
    (compute_from_last_months lead_time z monthly_units fba_stock
        inbound_stock).rop =
      (compute_from_last_months lead_time z monthly_units fba_stock2
        inbound_stock2).rop := by
  by_cases h : monthly_units = [] <;>
    simp [compute_from_last_months, h]

/-- C10: two calls differing only in `fba_stock` and/or `inbound_stock`
agree on `daily_velocity`, `std_daily`, `safety_stock` and `rop`; only
`order_qty` can depend on the stock arguments. -/
theorem claim10_stock_independence (lead_time : ℤ) (z : ℝ)
    (monthly_units : List ℤ) (fba_stock inbound_stock fba_stock2
      inbound_stock2 : ℤ) :
    (compute_from_last_months lead_time z monthly_units fba_stock
        inbound_stock).daily_velocity =
      (compute_from_last_months lead_time z monthly_units fba_stock2
        inbound_stock2).daily_velocity ∧
    (compute_from_last_months lead_time z monthly_units fba_stock
        inbound_stock).std_daily =
      (compute_from_last_months lead_time z monthly_units fba_stock2
        inbound_stock2).std_daily ∧
    (compute_from_last_months lead_time z monthly_units fba_stock
        inbound_stock).safety_stock =
      (compute_from_last_months lead_time z monthly_units fba_stock2
        inbound_stock2).safety_stock ∧
    (compute_from_last_months lead_time z monthly_units fba_stock
        inbound_stock).rop =
      (compute_from_last_months lead_time z monthly_units fba_stock2
        inbound_stock2).rop := by
  by_cases h : monthly_units = [] <;>
    simp [compute_from_last_months, h]

/-- C5: holding everything else fixed, `order_qty` is monotonically
non-increasing in `fba_stock` and in `inbound_stock`, and `order_qty`
is never negative for any inputs. -/
theorem claim5_order_qty_monotone (lead_time : ℤ) (z : ℝ)
    (monthly_units : List ℤ) (fba_stock fba_stock2 inbound_stock
      inbound_stock2 : ℤ) (hf : fba_stock ≤ fba_stock2)
    (hi : inbound_stock ≤ inbound_stock2) :
    (compute_from_last_months lead_time z monthly_units fba_stock2
        inbound_stock2).order_qty ≤
      (compute_from_last_months lead_time z monthly_units fba_stock
        inbound_stock).order_qty ∧
    ∀ (f i : ℤ),
      0 ≤ (compute_from_last_months lead_time z monthly_units f
        i).order_qty := by
  by_cases h : monthly_units = []
  · constructor
    · simp [compute_from_last_months, h]
    · intro f i
      simp only [compute_from_last_months, h, if_pos]
      norm_num
  · constructor
    · rw [order_qty_eq lead_time z monthly_units fba_stock2
        inbound_stock2 h,
        order_qty_eq lead_time z monthly_units fba_stock inbound_stock h]
      have hdv := fields_stock_independent lead_time z monthly_units
        fba_stock inbound_stock fba_stock2 inbound_stock2
      rw [hdv.1, hdv.2.2.1]
      apply max_le_max le_rfl
      have : (fba_stock : ℝ) + (inbound_stock : ℝ) ≤
          (fba_stock2 : ℝ) + (inbound_stock2 : ℝ) := by
        have hf' : (fba_stock : ℝ) ≤ (fba_stock2 : ℝ) := by
          exact_mod_cast hf
        have hi' : (inbound_stock : ℝ) ≤ (inbound_stock2 : ℝ) := by
          exact_mod_cast hi
        linarith
      linarith
    · intro f i
      rw [order_qty_eq lead_time z monthly_units f i h]
      exact le_trans (by norm_num) (le_max_left (0.0 : ℝ) _)

/-- C5 witness: monotonicity instantiated at `fba 10 ≤ 25`,
`inbound 5 ≤ 7`. -/
theorem claim5_order_qty_monotone_witness :
    ((10 : ℤ) ≤ 25 ∧ (5 : ℤ) ≤ 7) ∧
    (compute_from_last_months 14 1.65 [60, 90, 120] 25 7).order_qty ≤
      (compute_from_last_months 14 1.65 [60, 90, 120] 10 5).order_qty :=
  ⟨⟨by decide, by decide⟩,
    (claim5_order_qty_monotone 14 1.65 [60, 90, 120] 10 25 5 7
      (by decide) (by decide)).1⟩

/-- C7 counterexample: with a negative service coefficient the returned
`safety_stock` is negative, so the claim that all five metrics are
non-negative for every real `serviceCoefficient` fails at `z = -1`,
`lead_time = 1`, `monthly_units = [0, 60]`. -/
theorem claim7_counterexample :
    (compute_from_last_months 1 (-1) [0, 60] 0 0).safety_stock < 0 := by
  have h : ([0, 60] : List ℤ) ≠ [] := by simp
  rw [safety_stock_eq 1 (-1) [0, 60] 0 0 h,
    std_daily_eq 1 (-1) [0, 60] 0 0 h]
  simp [stdev, mean_month]
  positivity

/-- C7 (amended): for non-negative `z`, non-negative `lead_time`,
non-negative `monthly_units` and any stocks, all five returned metrics
are non-negative. -/
theorem claim7_amended_nonneg (lead_time : ℤ) (z : ℝ)
    (monthly_units : List ℤ) (fba_stock inbound_stock : ℤ)
    (hz : 0 ≤ z) (hlt : 0 ≤ lead_time)
    (hu : ∀ x ∈ monthly_units, 0 ≤ x) :
    0 ≤ (compute_from_last_months lead_time z monthly_units fba_stock
      inbound_stock).daily_velocity ∧
    0 ≤ (compute_from_last_months lead_time z monthly_units fba_stock
      inbound_stock).std_daily ∧
    0 ≤ (compute_from_last_months lead_time z monthly_units fba_stock
      inbound_stock).safety_stock ∧
    0 ≤ (compute_from_last_months lead_time z monthly_units fba_stock
      inbound_stock).rop ∧
    0 ≤ (compute_from_last_months lead_time z monthly_units fba_stock
      inbound_stock).order_qty := by
  by_cases h : monthly_units = []
  · refine ⟨?_, ?_, ?_, ?_, ?_⟩ <;>
      simp only [compute_from_last_months, h, if_pos] <;> norm_num
  · have hsum : (0 : ℝ) ≤ (monthly_units.sum : ℝ) := by
      have : (0 : ℤ) ≤ monthly_units.sum := List.sum_nonneg hu
      exact_mod_cast this
    have hdv : 0 ≤ (compute_from_last_months lead_time z monthly_units
        fba_stock inbound_stock).daily_velocity := by
      rw [daily_velocity_eq lead_time z monthly_units fba_stock
        inbound_stock h]
      unfold mean_month
      positivity
    have hsd : 0 ≤ (compute_from_last_months lead_time z monthly_units
        fba_stock inbound_stock).std_daily := by
      rw [std_daily_eq lead_time z monthly_units fba_stock
        inbound_stock h]
      by_cases hlen : monthly_units.length < 2
      · rw [if_pos hlen]
        norm_num
      · rw [if_neg hlen]
        unfold stdev
        positivity
    have hss : 0 ≤ (compute_from_last_months lead_time z monthly_units
        fba_stock inbound_stock).safety_stock := by
      rw [safety_stock_eq lead_time z monthly_units fba_stock
        inbound_stock h]
      exact mul_nonneg (mul_nonneg hz hsd) (Real.sqrt_nonneg _)
    have hrop : 0 ≤ (compute_from_last_months lead_time z monthly_units
        fba_stock inbound_stock).rop := by
      rw [rop_eq lead_time z monthly_units fba_stock inbound_stock h]
      have hlt' : (0 : ℝ) ≤ ((lead_time : ℤ) : ℝ) := by exact_mod_cast hlt
      exact add_nonneg (mul_nonneg hdv hlt') hss
    have hoq : 0 ≤ (compute_from_last_months lead_time z monthly_units
        fba_stock inbound_stock).order_qty := by
      rw [order_qty_eq lead_time z monthly_units fba_stock
        inbound_stock h]
      exact le_trans (by norm_num) (le_max_left (0.0 : ℝ) _)
    exact ⟨hdv, hsd, hss, hrop, hoq⟩

/-- C7 witness: non-negativity of all five metrics instantiated at
`lead_time = 14`, `z = 1.65`, `monthly_units = [60, 90, 120]`. -/
theorem claim7_amended_nonneg_witness :
    ((0 : ℝ) ≤ 1.65 ∧ (0 : ℤ) ≤ 14) ∧
    0 ≤ (compute_from_last_months 14 1.65 [60, 90, 120] 10
      5).daily_velocity :=
  ⟨⟨by norm_num, by decide⟩,
    (claim7_amended_nonneg 14 1.65 [60, 90, 120] 10 5 (by norm_num)
      (by decide) (by decide)).1⟩

/-- The engine mean is invariant under permutation of the history. -/
theorem mean_month_perm (xs ys : List ℤ) (h : xs.Perm ys) :
    mean_month xs = mean_month ys := by
  unfold mean_month
  rw [h.sum_eq, h.length_eq]

/-- The embedded `statistics.stdev` is invariant under permutation. -/
theorem stdev_perm (xs ys : List ℤ) (h : xs.Perm ys) :
    stdev xs = stdev ys := by
  unfold stdev
  rw [mean_month_perm xs ys h, h.length_eq]
  have hp := List.Perm.map (fun x : ℤ => ((x : ℝ) - mean_month ys) ^ 2) h
  rw [hp.sum_eq]

/-- C9: `std_daily` is invariant under reordering of `monthly_units`,
all other arguments fixed. -/
theorem claim9_std_perm_invariant (lead_time : ℤ) (z : ℝ)
    (xs ys : List ℤ) (fba_stock inbound_stock : ℤ) (h : xs.Perm ys) :
    (compute_from_last_months lead_time z xs fba_stock
        inbound_stock).std_daily =
      (compute_from_last_months lead_time z ys fba_stock
        inbound_stock).std_daily := by
  by_cases hx : xs = []
  · have hy : ys = [] := by
      subst hx
      exact h.nil_eq.symm
    rw [hx, hy]
  · have hy : ys ≠ [] := by
      intro hy
      subst hy
      exact hx h.eq_nil
    rw [std_daily_eq lead_time z xs fba_stock inbound_stock hx,
      std_daily_eq lead_time z ys fba_stock inbound_stock hy,
      h.length_eq, stdev_perm xs ys h]

/-- C9 witness: instantiated at the permutation
`[60, 90, 120] ~ [120, 60, 90]`. -/
theorem claim9_std_perm_invariant_witness :
    ([60, 90, 120] : List ℤ).Perm [120, 60, 90] ∧
    (compute_from_last_months 14 1.65 [60, 90, 120] 0 0).std_daily =
      (compute_from_last_months 14 1.65 [120, 60, 90] 0 0).std_daily :=
  ⟨by decide,
    claim9_std_perm_invariant 14 1.65 [60, 90, 120] [120, 60, 90] 0 0
      (by decide)⟩

/-- Embedding of `compute_from_last_months` that tracks the Python
runtime error conditions; `none` models an uncaught exception. The mean
divides by `len(monthly_units)` (a `ZeroDivisionError` when 0 —
unreachable here because the empty list is handled first);
`statistics.stdev` raises for fewer than 2 data points — prevented by
the `n < 2` branch; `math.sqrt` raises a domain error for a negative
argument, which the source does not guard. -/
noncomputable def compute_from_last_months_checked (lead_time : ℤ)
    (z : ℝ) (monthly_units : List ℤ) (fba_stock inbound_stock : ℤ) :
    Option Metrics :=
  if monthly_units = [] then
    some ({ daily_velocity := 0.0, std_daily := 0.0,
            safety_stock := 0.0, rop := 0.0,
            order_qty := 0.0 } : Metrics)
  else if monthly_units.length = 0 then
    none
  else if lead_time < 0 then
    none
  else
    let daily_velocity : ℝ := mean_month monthly_units / 30.0
    let std_daily : ℝ :=
      if monthly_units.length < 2 then 0.0 else stdev monthly_units / 30.0
    let safety_stock : ℝ := z * std_daily * Real.sqrt (lead_time : ℝ)
    let rop : ℝ := daily_velocity * (lead_time : ℝ) + safety_stock
    let order_qty : ℝ :=
      max 0.0 (daily_velocity * 60 + safety_stock -
        ((fba_stock : ℝ) + (inbound_stock : ℝ)))
    some ({ daily_velocity := daily_velocity, std_daily := std_daily,
            safety_stock := safety_stock, rop := rop,
            order_qty := order_qty } : Metrics)

/-- C8: the engine is total on well-typed, non-negative inputs: for
`lead_time ≥ 0`, any real `z`, any list of non-negative monthly units
(including the empty list) and non-negative stocks, the error-tracking
embedding hits no error branch and agrees with the direct embedding. -/
theorem claim8_total (lead_time : ℤ) (z : ℝ) (monthly_units : List ℤ)
    (fba_stock inbound_stock : ℤ) (hlt : 0 ≤ lead_time)
    (hu : ∀ x ∈ monthly_units, 0 ≤ x) (hf : 0 ≤ fba_stock)
    (hi : 0 ≤ inbound_stock) :
    compute_from_last_months_checked lead_time z monthly_units fba_stock
        inbound_stock =
      some (compute_from_last_months lead_time z monthly_units fba_stock
        inbound_stock) := by
  by_cases h : monthly_units = []
  · simp [compute_from_last_months_checked, compute_from_last_months, h]
  · simp [compute_from_last_months_checked, compute_from_last_months, h,
      not_lt.mpr hlt]

/-- C8 witness: totality instantiated at `lead_time = 14`, `z = 1.65`,
`monthly_units = [60, 90, 120]`, stocks `10` and `5`. -/
theorem claim8_total_witness :
    ((0 : ℤ) ≤ 14 ∧ (0 : ℤ) ≤ 10 ∧ (0 : ℤ) ≤ 5) ∧
    compute_from_last_months_checked 14 1.65 [60, 90, 120] 10 5 =
      some (compute_from_last_months 14 1.65 [60, 90, 120] 10 5) :=
  ⟨⟨by decide, by decide, by decide⟩,
    claim8_total 14 1.65 [60, 90, 120] 10 5 (by decide) (by decide)
      (by decide) (by decide)⟩

/-- Embedding of `last_n_calendar_months` from `main.py`, with the
`date.today()` clock read made an explicit `(y, m)` input: starting from
the current (year, month), append `n` pairs, stepping `m -= 1` and
rolling `m = 12; y -= 1` whenever `m` reaches 0. -/
def last_n_calendar_months (n : ℕ) (y m : ℤ) : List (ℤ × ℤ) :=
  match n with
  | 0 => []
  | k + 1 =>
      (y, m) ::
        (if m - 1 = 0 then last_n_calendar_months k (y - 1) 12
         else last_n_calendar_months k y (m - 1))

/-- One calendar month earlier: January rolls back to December of the
previous year. -/
def prev_calendar_month (p : ℤ × ℤ) : ℤ × ℤ :=
  if p.2 = 1 then (p.1 - 1, 12) else (p.1, p.2 - 1)

/-- The resolver returns exactly `n` pairs. -/
theorem last_n_calendar_months_length (n : ℕ) (y m : ℤ) :
    (last_n_calendar_months n y m).length = n := by
  induction n generalizing y m with
  | zero => rfl
  | succ k ih =>
      unfold last_n_calendar_months
      by_cases h : m - 1 = 0 <;> simp [h, ih]

/-- Anything in the resolver output's `head?` is the starting pair. -/
theorem last_n_calendar_months_head (k : ℕ) (y m : ℤ) (b : ℤ × ℤ)
    (hb : b ∈ (last_n_calendar_months k y m).head?) : b = (y, m) := by
  cases k with
  | zero => simp [last_n_calendar_months] at hb
  | succ j =>
      simp only [last_n_calendar_months, List.head?_cons,
        Option.mem_def, Option.some.injEq] at hb
      exact hb.symm

/-- Consecutive resolver outputs step back one calendar month. -/
theorem last_n_calendar_months_chain (n : ℕ) (y m : ℤ) :
    List.Chain' (fun a b => b = prev_calendar_month a)
      (last_n_calendar_months n y m) := by
  induction n generalizing y m with
  | zero => simp [last_n_calendar_months]
  | succ k ih =>
      unfold last_n_calendar_months
      by_cases h : m - 1 = 0
      · rw [if_pos h]
        refine List.chain'_cons'.mpr ⟨?_, ih (y - 1) 12⟩
        intro b hb
        rw [last_n_calendar_months_head k (y - 1) 12 b hb]
        have hm : m = 1 := by omega
        simp [prev_calendar_month, hm]
      · rw [if_neg h]
        refine List.chain'_cons'.mpr ⟨?_, ih y (m - 1)⟩
        intro b hb
        rw [last_n_calendar_months_head k y (m - 1) b hb]
        have hm : ¬ m = 1 := by omega
        simp [prev_calendar_month, hm]

/-- C6: for every `n` and every (year, month), the resolver returns
exactly `n` pairs, the first being the given (year, month), each
subsequent pair one calendar month earlier (January rolls back to
December of the previous year); in particular 3 months back from 2024-01
are `[(2024,1), (2023,12), (2023,11)]`. -/
theorem claim6_calendar (n : ℕ) (y m : ℤ) :
    (last_n_calendar_months n y m).length = n ∧
    (0 < n → (last_n_calendar_months n y m).head? = some (y, m)) ∧
    List.Chain' (fun a b => b = prev_calendar_month a)
      (last_n_calendar_months n y m) ∧
    last_n_calendar_months 3 2024 1 =
      [(2024, 1), (2023, 12), (2023, 11)] := by
  refine ⟨last_n_calendar_months_length n y m, fun hn => ?_,
    last_n_calendar_months_chain n y m, by decide⟩
  cases n with
  | zero => omega
  | succ k => simp [last_n_calendar_months]

/-- C6 witness: the resolver instantiated at `n = 3`, today 2024-01. -/
theorem claim6_calendar_witness :
    (0 : ℕ) < 3 ∧
    (last_n_calendar_months 3 2024 1).head? = some (2024, 1) :=
  ⟨by decide, (claim6_calendar 3 2024 1).2.1 (by decide)⟩

end Planner
